import Mathlib

/-!
Shallow embedding of the glider-content chat bot (src/bot.py): the content
catalog, the keyboard builders, the message and callback dispatch chains in
their registration order, and the send-section helper with its photo-to-text
fallback. Machine-level transport concerns (polling, delivery) stay abstract:
an inbound event is routed to a list of callback acknowledgements and a list
of delivered messages.
-/

namespace GliderBot

/-- Truthiness of an optional string as Python evaluates it: an absent value
and the empty string are falsy, every other string is truthy. -/
def strTruthy : Option String → Bool
  | none => false
  | some s => s != ""

/-- Embedding of the Python startswith test, written over character lists so
that it reduces inside the kernel. -/
def pyStartsWith (s pre : String) : Bool := pre.toList.isPrefixOf s.toList

/-- Characters after the first bar of a list. Under the startswith guards of
the callback handlers the bar is always present, and the second component of
the maxsplit-one split used there is exactly the text after the first bar. -/
def afterFirstBar : List Char → List Char
  | [] => []
  | c :: rest => if c = '|' then rest else afterFirstBar rest

/-- Embedding of the split step of the callback handlers: the payload text
after the first bar. -/
def pySplit1Tail (s : String) : String := String.mk (afterFirstBar s.toList)

/-- One browsable content unit as the routing code reads it from the parsed
sections list: id, title and text are accessed by subscript, while image,
has_more and more_text are read with .get, an absent value modelled as none
or false. -/
structure Section where
  id : String
  title : String
  text : String
  image : Option String
  has_more : Bool
  more_text : Option String
deriving DecidableEq

/-- Module-level values bound at startup and only ever read by the handlers:
SECTIONS, INTERFACE_MODE, BUY_URL, CONTACT_URL and WELCOME_TEXT. -/
structure Config where
  sections : List Section
  interfaceMode : String
  buyUrl : Option String
  contactUrl : Option String
  welcomeText : String
deriving DecidableEq

/-- One keyboard button: a reply-keyboard text button, an inline callback
button carrying its payload, or an inline link button whose url may be
absent, mirroring a button built with a missing url value. -/
inductive Button where
  | textBtn (label : String)
  | cb (label : String) (data : String)
  | link (label : String) (url : Option String)
deriving DecidableEq

/-- Keyboard attached to an outgoing message: rows of buttons, either a
persistent reply keyboard or an inline keyboard. -/
inductive Keyboard where
  | reply (rows : List (List Button))
  | inline (rows : List (List Button))
deriving DecidableEq

/-- Rows of two as produced by the accumulation loop of
build_sections_reply_keyboard and by inline insertion with row width two:
a row is flushed after every second element and a trailing odd element forms
a final shorter row. -/
def rowsOf2 {α : Type} : List α → List (List α)
  | [] => []
  | [a] => [[a]]
  | a :: b :: rest => [a, b] :: rowsOf2 rest

/-- build_menu_keyboard: the four persistent main-menu buttons, one per
row, in their fixed order. -/
def build_menu_keyboard : Keyboard :=
  Keyboard.reply
    [[Button.textBtn "Выбрать раздел"], [Button.textBtn "Купить планер"],
     [Button.textBtn "Связаться с автором"], [Button.textBtn "Помощь"]]

/-- build_sections_reply_keyboard: section titles two per row in catalog
order, an odd remainder forming a shorter row, then a trailing one-button
row with the back label. -/
def build_sections_reply_keyboard (cfg : Config) : Keyboard :=
  Keyboard.reply
    (rowsOf2 (cfg.sections.map (fun s => Button.textBtn s.title)) ++
      [[Button.textBtn "Назад"]])

/-- Rows of build_inline_sections_keyboard: one callback button per section
with payload sect followed by the id, packed two to a row, then one row for
the buy link button and one row for the contact link button. -/
def inlineSectionsRows (cfg : Config) : List (List Button) :=
  rowsOf2 (cfg.sections.map (fun s => Button.cb s.title ("sect|" ++ s.id))) ++
    [[Button.link "Купить планер" cfg.buyUrl],
     [Button.link "Связаться с автором" cfg.contactUrl]]

/-- build_inline_sections_keyboard packaged as a keyboard value. -/
def build_inline_sections_keyboard (cfg : Config) : Keyboard :=
  Keyboard.inline (inlineSectionsRows cfg)

/-- Rows of the ad hoc detail keyboard built inside inline_section_callback:
a detail button with payload more followed by the id is added only when
has_more is truthy, and a back button with payload back_to_menu is always
added after it. -/
def sectionDetailInline (s : Section) : List (List Button) :=
  (if s.has_more then [[Button.cb "Подробнее" ("more|" ++ s.id)]] else []) ++
    [[Button.cb "Назад" "back_to_menu"]]

/-- One message delivered to the chat transport. -/
inductive Sent where
  | text (chatId : Nat) (body : String) (kb : Option Keyboard)
  | photo (chatId : Nat) (image : String) (caption : String) (kb : Option Keyboard)
deriving DecidableEq

/-- Keyboard attached to a delivered message. -/
def sentKeyboard : Sent → Option Keyboard
  | .text _ _ kb => kb
  | .photo _ _ _ kb => kb

/-- Callback acknowledgement issued through the answer call of a callback
query: a bare acknowledgement, or a transient alert with its text and the
show-alert flag. -/
inductive CbAnswer where
  | ack
  | alert (text : String) (showAlert : Bool)
deriving DecidableEq

/-- send_section: with a truthy image the handler attempts a photo send
with the section text as caption; photoFails models the transport raising
on that attempt, in which case the handler falls through to one plain text
send with the same caption and keyboard. With no truthy image the text is
sent directly. The returned list holds the messages actually delivered. -/
def send_section (photoFails : Bool) (chatId : Nat) (s : Section)
    (kb : Option Keyboard) : List Sent :=
  match s.image with
  | some img =>
      if img != "" then
        if photoFails then [Sent.text chatId s.text kb]
        else [Sent.photo chatId img s.text kb]
      else [Sent.text chatId s.text kb]
  | none => [Sent.text chatId s.text kb]

/-- Static help text of cmd_help, also sent by the help button handler. -/
def helpText : String :=
  "Этот бот показывает примеры заполнения разделов планера.\nНажми «Выбрать раздел» и выбери нужный."

/-- Python f-string rendering of a possibly absent url: an absent value
prints as the word None. -/
def optStr : Option String → String
  | some s => s
  | none => "None"

/-- Message-handler dispatch in registration order: the start command, the
help command, the five fixed button handlers, the section-title handler
taking the first section whose title equals the text, then the catch-all
fallback. Command matching is modelled as exact text. -/
def handleMessage (cfg : Config) (photoFails : Bool) (chat : Nat)
    (body : String) : List Sent :=
  if body = "/start" then
    [Sent.text chat cfg.welcomeText (some build_menu_keyboard)]
  else if body = "/help" then [Sent.text chat helpText none]
  else if body = "Выбрать раздел" then
    if cfg.interfaceMode = "menu" then
      [Sent.text chat "Выберите раздел:" (some (build_sections_reply_keyboard cfg))]
    else
      [Sent.text chat "Выберите раздел:" (some (build_inline_sections_keyboard cfg))]
  else if body = "Купить планер" then
    [Sent.text chat ("Перейти на маркетплейс: " ++ optStr cfg.buyUrl) none]
  else if body = "Связаться с автором" then
    [Sent.text chat ("Связаться: " ++ optStr cfg.contactUrl) none]
  else if body = "Помощь" then [Sent.text chat helpText none]
  else if body = "Назад" then
    [Sent.text chat "Главное меню:" (some build_menu_keyboard)]
  else
    match cfg.sections.find? (fun s => s.title == body) with
    | some s => send_section photoFails chat s none
    | none =>
        [Sent.text chat "Не понимаю. Нажми «Выбрать раздел» или /help." none]

/-- Text sent by inline_more_callback for a found section: the literal
more_text when truthy, else the static fallback, mirroring the Python
or-expression. -/
def moreTextOf (s : Section) : String :=
  match s.more_text with
  | some t => if t != "" then t else "Дополнительная информация отсутствует."
  | none => "Дополнительная информация отсутствует."

/-- Callback-handler dispatch in registration order: payloads with the sect
prefix take the section handler, then payloads with the more prefix take
the detail handler, then the literal back_to_menu payload; any other
payload matches no handler and nothing is sent. -/
def handleCallback (cfg : Config) (photoFails : Bool) (chat : Nat)
    (data : String) : List CbAnswer × List Sent :=
  if pyStartsWith data "sect|" then
    match cfg.sections.find? (fun s => s.id == pySplit1Tail data) with
    | none => ([CbAnswer.alert "Раздел не найден" true], [])
    | some s =>
        ([CbAnswer.ack],
          send_section photoFails chat s
            (some (Keyboard.inline (sectionDetailInline s))))
  else if pyStartsWith data "more|" then
    match cfg.sections.find? (fun s => s.id == pySplit1Tail data) with
    | none => ([CbAnswer.alert "Раздел не найден" true], [])
    | some s => ([CbAnswer.ack], [Sent.text chat (moreTextOf s) none])
  else if data = "back_to_menu" then
    ([CbAnswer.ack],
      [if cfg.interfaceMode = "menu" then
        Sent.text chat "Главное меню:" (some build_menu_keyboard)
      else
        Sent.text chat "Выберите раздел:" (some (build_inline_sections_keyboard cfg))])
  else ([], [])

/-- Inbound transport event: a chat message with a text body, or an inline
callback with its payload. -/
inductive Event where
  | msg (chat : Nat) (body : String)
  | cb (chat : Nat) (data : String)
deriving DecidableEq

/-- Event routing with the module-level state threaded explicitly. The
handlers read the configuration and never assign to it, so the state
component passes through unchanged. -/
def routeEvent (st : Config) (photoFails : Bool) (e : Event) :
    (List CbAnswer × List Sent) × Config :=
  match e with
  | .msg chat body => (([], handleMessage st photoFails chat body), st)
  | .cb chat data => (handleCallback st photoFails chat data, st)

/-- Raw parsed JSON object for one entry of the sections array, every field
optional: the load step performs no validation of entries. -/
structure RawSection where
  id : Option String
  title : Option String
  text : Option String
  image : Option String
  has_more : Option Bool
  more_text : Option String
deriving DecidableEq

/-- Parsed top-level content object with every field optional. Malformed
JSON already fails inside the JSON parser before this structure exists, so
the load model starts from the parsed value. -/
structure ContentSource where
  interface_mode : Option String
  welcome_text : Option String
  buy_url : Option String
  contact_url : Option String
  sections : Option (List RawSection)
deriving DecidableEq

/-- Failure of the startup load step. -/
inductive LoadError where
  | missingSectionsKey
deriving DecidableEq

/-- Values bound at startup from the parsed content. -/
structure LoadedContent where
  sections : List RawSection
  interface_mode : Option String
  buy_url : Option String
  contact_url : Option String
  welcome_text : String
deriving DecidableEq

/-- Startup load step over the parsed content: the subscript access of the
sections key raises when the key is absent, every other field is read with
.get and a default; no entry validation and no duplicate checking occurs. -/
def loadContent (src : ContentSource) : Except LoadError LoadedContent :=
  match src.sections with
  | none => Except.error LoadError.missingSectionsKey
  | some secs =>
      Except.ok
        { sections := secs, interface_mode := src.interface_mode,
          buy_url := src.buy_url, contact_url := src.contact_url,
          welcome_text := src.welcome_text.getD "Привет!" }

/-- Effective interface mode: the environment override when present, else
the declared interface_mode of the content, else menu. -/
def resolveInterfaceMode (envMode : Option String) (src : ContentSource) : String :=
  match envMode with
  | some m => m
  | none =>
      match src.interface_mode with
      | some m => m
      | none => "menu"

/-- Labels of the five fixed command-button message handlers in their
registration order. -/
def fixedLabels : List String :=
  ["Выбрать раздел", "Купить планер", "Связаться с автором", "Помощь", "Назад"]

/-- Responses of the five fixed command-button rules alone, stated from the
routing table of the specification for the precedence comparison. This
function never consults section titles. -/
def fixedLabelResponse (cfg : Config) (chat : Nat) (body : String) : List Sent :=
  if body = "Выбрать раздел" then
    if cfg.interfaceMode = "menu" then
      [Sent.text chat "Выберите раздел:" (some (build_sections_reply_keyboard cfg))]
    else
      [Sent.text chat "Выберите раздел:" (some (build_inline_sections_keyboard cfg))]
  else if body = "Купить планер" then
    [Sent.text chat ("Перейти на маркетплейс: " ++ optStr cfg.buyUrl) none]
  else if body = "Связаться с автором" then
    [Sent.text chat ("Связаться: " ++ optStr cfg.contactUrl) none]
  else if body = "Помощь" then [Sent.text chat helpText none]
  else if body = "Назад" then
    [Sent.text chat "Главное меню:" (some build_menu_keyboard)]
  else []

/-- Sample section with an image and a detail flag. -/
def secWings : Section :=
  { id := "a", title := "Крылья", text := "Описание крыльев",
    image := some "pic", has_more := true, more_text := none }

/-- Sample section with an empty detail text. -/
def secTail : Section :=
  { id := "b", title := "Хвост", text := "Описание хвоста",
    image := none, has_more := false, more_text := some "" }

/-- Sample section whose title collides with the back button label. -/
def secShadow : Section :=
  { id := "c", title := "Назад", text := "скрытый текст",
    image := none, has_more := false, more_text := none }

/-- Sample configuration in inline mode holding the three sample sections. -/
def cfgInline : Config :=
  { sections := [secWings, secTail, secShadow],
    interfaceMode := "inline", buyUrl := some "https://market",
    contactUrl := none, welcomeText := "Привет!" }

/-- Sample configuration identical to cfgInline except for menu mode. -/
def cfgMenu : Config := { cfgInline with interfaceMode := "menu" }

/-- Parsed content whose sections array holds two entries sharing one id. -/
def srcDupIds : ContentSource :=
  { interface_mode := none, welcome_text := none, buy_url := none,
    contact_url := none,
    sections := some
      [{ id := some "a", title := some "Крылья", text := some "x",
         image := none, has_more := none, more_text := none },
       { id := some "a", title := some "Хвост", text := some "y",
         image := none, has_more := none, more_text := none }] }

/-- Loaded value the startup step produces from srcDupIds. -/
def loadedDupIds : LoadedContent :=
  { sections :=
      [{ id := some "a", title := some "Крылья", text := some "x",
         image := none, has_more := none, more_text := none },
       { id := some "a", title := some "Хвост", text := some "y",
         image := none, has_more := none, more_text := none }],
    interface_mode := none, buy_url := none, contact_url := none,
    welcome_text := "Привет!" }

/-- Helper: a payload with the more prefix cannot also carry the sect
prefix, so the sect handler is skipped for it. -/
theorem more_not_sect (s : String) (h : pyStartsWith s "more|" = true) :
    pyStartsWith s "sect|" = false := by
  unfold pyStartsWith at *
  rcases hl : s.toList with _ | ⟨c, rest⟩ <;> rw [hl] at h <;>
    simp_all [List.isPrefixOf]
  obtain ⟨h1, h2⟩ := h
  subst h1
  intro hc
  exact absurd hc (by decide)

/-- Helper: every message produced by send_section with no keyboard
carries no keyboard. -/
theorem send_section_no_kb (pf : Bool) (chat : Nat) (s : Section) :
    ∀ m ∈ send_section pf chat s none, sentKeyboard m = none := by
  intro m hm
  rcases h : s.image with _ | img
  · simp only [send_section, h, List.mem_singleton] at hm
    subst hm; rfl
  · simp only [send_section, h] at hm
    split at hm
    · split at hm <;> (simp only [List.mem_singleton] at hm; subst hm; rfl)
    · simp only [List.mem_singleton] at hm; subst hm; rfl

/-- C1: routing a callback whose payload carries the sect or the more
prefix, when the id after the bar matches no section of the catalog,
yields exactly one transient alert with the show-alert flag and zero
content messages. -/
theorem unknown_callback_id_alerts (cfg : Config) (pf : Bool) (chat : Nat)
    (data : String)
    (hverb : pyStartsWith data "sect|" = true ∨ pyStartsWith data "more|" = true)
    (hid : ∀ s ∈ cfg.sections, s.id ≠ pySplit1Tail data) :
    handleCallback cfg pf chat data = ([CbAnswer.alert "Раздел не найден" true], []) := by
  have hfind : cfg.sections.find? (fun s => s.id == pySplit1Tail data) = none := by
    rw [List.find?_eq_none]
    intro s hs
    simpa using hid s hs
  rcases hverb with h | h
  · simp [handleCallback, h, hfind]
  · have hns : pyStartsWith data "sect|" = false := more_not_sect data h
    simp [handleCallback, h, hns, hfind]

/-- C1 witness: the sample catalog has no section with id zzz. -/
theorem unknown_callback_id_alerts_witness :
    handleCallback cfgInline false 1 "sect|zzz" =
      ([CbAnswer.alert "Раздел не найден" true], []) :=
  unknown_callback_id_alerts cfgInline false 1 "sect|zzz"
    (Or.inl (by decide)) (by decide)

/-- C3 counterexample: in the inline-mode sample configuration a text back
event delivers exactly the main reply-menu message, and no delivered
message carries the sections inline keyboard the claim predicts. -/
theorem back_text_ignores_mode_counterexample :
    handleMessage cfgInline false 7 "Назад" =
      [Sent.text 7 "Главное меню:" (some build_menu_keyboard)] ∧
    (handleMessage cfgInline false 7 "Назад").map sentKeyboard =
      [some build_menu_keyboard] ∧
    build_menu_keyboard ≠ build_inline_sections_keyboard cfgInline := by
  refine ⟨rfl, rfl, ?_⟩
  decide

/-- C3 amended: a text back event re-sends the main menu keyboard in every
mode; it is the back_to_menu callback that branches on the mode, re-sending
the main menu under menu mode and the sections inline keyboard otherwise. -/
theorem back_text_and_back_callback (cfg : Config) (pf : Bool) (chat : Nat) :
    handleMessage cfg pf chat "Назад" =
      [Sent.text chat "Главное меню:" (some build_menu_keyboard)] ∧
    handleCallback cfg pf chat "back_to_menu" =
      ([CbAnswer.ack],
        [if cfg.interfaceMode = "menu" then
          Sent.text chat "Главное меню:" (some build_menu_keyboard)
        else
          Sent.text chat "Выберите раздел:" (some (build_inline_sections_keyboard cfg))]) :=
  ⟨rfl, rfl⟩

/-- C7: routing is deterministic and stateless: one routing step leaves
the threaded module state unchanged, and routing the same event again from
the resulting state yields the same acknowledgements and messages. -/
theorem routeEvent_stateless (st : Config) (pf : Bool) (e : Event) :
    (routeEvent st pf e).2 = st ∧
    routeEvent (routeEvent st pf e).2 pf e = routeEvent st pf e := by
  cases e <;> exact ⟨rfl, rfl⟩

/-- C8: the effective interaction mode equals the environment override
whenever it is set, regardless of the declared mode of the content, and
otherwise equals the declared mode of the content with default menu. -/
theorem resolveInterfaceMode_spec :
    (∀ m src, resolveInterfaceMode (some m) src = m) ∧
    (∀ src, resolveInterfaceMode none src = src.interface_mode.getD "menu") := by
  constructor
  · intro m src; rfl
  · intro src
    cases h : src.interface_mode <;> simp [resolveInterfaceMode, h]

/-- C2: a free text equal to a fixed command-button label takes the fixed
rule even when some section of the catalog carries the same title: message
dispatch equals the fixed-button response, which never consults section
titles, so the section-render handler is not reached. -/
theorem fixed_label_precedes_section_title (cfg : Config) (pf : Bool)
    (chat : Nat) (s : Section) (hs : s ∈ cfg.sections)
    (hlab : s.title ∈ fixedLabels) :
    handleMessage cfg pf chat s.title = fixedLabelResponse cfg chat s.title := by
  simp only [fixedLabels, List.mem_cons, List.not_mem_nil, or_false] at hlab
  rcases hlab with h | h | h | h | h <;> rw [h] <;> rfl

/-- C2 witness: the sample catalog holds a section titled with the back
label, and the dispatch still produces the fixed back response. -/
theorem fixed_label_precedes_section_title_witness :
    handleMessage cfgInline false 1 secShadow.title =
      fixedLabelResponse cfgInline 1 secShadow.title :=
  fixed_label_precedes_section_title cfgInline false 1 secShadow
    (by decide) (by decide)

/-- C4: selecting a found section through a sect callback acknowledges and
sends the content with the ad hoc detail keyboard; that keyboard holds the
detail button with payload more followed by the section id exactly when
has_more holds, and its final row is always the back button with payload
back_to_menu. -/
theorem sect_callback_detail_keyboard (cfg : Config) (pf : Bool) (chat : Nat)
    (s : Section) (data : String)
    (hpre : pyStartsWith data "sect|" = true)
    (hfind : cfg.sections.find? (fun t => t.id == pySplit1Tail data) = some s) :
    handleCallback cfg pf chat data =
      ([CbAnswer.ack],
        send_section pf chat s (some (Keyboard.inline (sectionDetailInline s)))) ∧
    ((∃ row ∈ sectionDetailInline s,
        Button.cb "Подробнее" ("more|" ++ s.id) ∈ row) ↔ s.has_more = true) ∧
    (sectionDetailInline s).getLast? = some [Button.cb "Назад" "back_to_menu"] := by
  refine ⟨?_, ?_, ?_⟩
  · simp [handleCallback, hpre, hfind]
  · cases hm : s.has_more <;>
      simp [sectionDetailInline, hm, show ("Подробнее" : String) ≠ "Назад" by decide]
  · cases hm : s.has_more <;> simp [sectionDetailInline, hm]

/-- C4 witness: selecting the sample section with the detail flag. -/
theorem sect_callback_detail_keyboard_witness :
    handleCallback cfgInline false 1 "sect|a" =
      ([CbAnswer.ack],
        send_section false 1 secWings
          (some (Keyboard.inline (sectionDetailInline secWings)))) ∧
    ((∃ row ∈ sectionDetailInline secWings,
        Button.cb "Подробнее" ("more|" ++ secWings.id) ∈ row) ↔
      secWings.has_more = true) ∧
    (sectionDetailInline secWings).getLast? =
      some [Button.cb "Назад" "back_to_menu"] :=
  sect_callback_detail_keyboard cfgInline false 1 secWings "sect|a"
    (by decide) (by decide)

/-- C5 counterexample: the load step accepts a parsed source whose sections
array holds two entries sharing one id, returning them both, so startup
proceeds with a duplicate catalog instead of failing. -/
theorem load_accepts_duplicate_ids :
    loadContent srcDupIds = Except.ok loadedDupIds ∧
    loadedDupIds.sections.map RawSection.id = [some "a", some "a"] :=
  ⟨rfl, rfl⟩

/-- C5 amended: the load step fails exactly when the parsed source lacks
the sections key; it performs no per-entry field validation and no
duplicate check. -/
theorem loadContent_error_iff (src : ContentSource) :
    loadContent src = Except.error LoadError.missingSectionsKey ↔
      src.sections = none := by
  cases h : src.sections <;> simp [loadContent, h]

/-- C6: send_section delivers exactly one message per invocation: on a
failing photo transport the single delivered message is the fallback text
with the same caption and keyboard, never together with a photo, and on a
successful transport with a truthy image the single delivered message is
the photo. -/
theorem send_section_exactly_one (chat : Nat) (s : Section)
    (kb : Option Keyboard) :
    (∀ pf, (send_section pf chat s kb).length = 1) ∧
    send_section true chat s kb = [Sent.text chat s.text kb] ∧
    (∀ img, s.image = some img → img ≠ "" →
      send_section false chat s kb = [Sent.photo chat img s.text kb]) := by
  refine ⟨?_, ?_, ?_⟩
  · intro pf
    rcases h : s.image with _ | img <;> simp only [send_section, h]
    · rfl
    · split
      · split <;> rfl
      · rfl
  · rcases h : s.image with _ | img <;> simp only [send_section, h]
    split <;> rfl
  · intro img h hne
    simp [send_section, h, hne]

/-- C6 witness: with a working transport the sample section with an image
delivers exactly the photo message. -/
theorem send_section_exactly_one_witness :
    send_section false 1 secWings none =
      [Sent.photo 1 "pic" "Описание крыльев" none] :=
  (send_section_exactly_one 1 secWings none).2.2 "pic" rfl (by decide)

/-- C9: the section-title message handler does not check the interaction
mode: a text equal to the title of the first matching section, when that
title collides with no fixed label and no command, renders that section
under every configuration — in particular every configuration with the
same sections list and any interface mode, inline as well as menu, yields
the same render — and every delivered message carries no keyboard. -/
theorem title_text_renders_regardless_of_mode (cfg : Config) (pf : Bool)
    (chat : Nat) (s : Section)
    (hfind : cfg.sections.find? (fun t => t.title == s.title) = some s)
    (hlab : s.title ∉ fixedLabels)
    (h1 : s.title ≠ "/start") (h2 : s.title ≠ "/help") :
    handleMessage cfg pf chat s.title = send_section pf chat s none ∧
    (∀ cfg' : Config, cfg'.sections = cfg.sections →
      handleMessage cfg' pf chat s.title = send_section pf chat s none) ∧
    ∀ m ∈ handleMessage cfg pf chat s.title, sentKeyboard m = none := by
  simp only [fixedLabels, List.mem_cons, List.not_mem_nil, or_false] at hlab
  push_neg at hlab
  obtain ⟨hA, hB, hC, hD, hE⟩ := hlab
  have key : ∀ cfg' : Config, cfg'.sections = cfg.sections →
      handleMessage cfg' pf chat s.title = send_section pf chat s none := by
    intro cfg' hsec
    unfold handleMessage
    rw [if_neg h1, if_neg h2, if_neg hA, if_neg hB, if_neg hC, if_neg hD,
      if_neg hE, hsec, hfind]
  refine ⟨key cfg rfl, key, ?_⟩
  rw [key cfg rfl]
  exact send_section_no_kb pf chat s

/-- C9 witness: the title of the first sample section renders its content
through send_section under the menu-mode sample configuration as well as
under the inline-mode one. -/
theorem title_text_renders_regardless_of_mode_witness :
    handleMessage cfgMenu false 1 secWings.title =
      send_section false 1 secWings none ∧
    handleMessage cfgInline false 1 secWings.title =
      send_section false 1 secWings none :=
  ⟨(title_text_renders_regardless_of_mode cfgInline false 1 secWings
      (by decide) (by decide) (by decide) (by decide)).2.1 cfgMenu rfl,
   (title_text_renders_regardless_of_mode cfgInline false 1 secWings
      (by decide) (by decide) (by decide) (by decide)).1⟩

/-- C10: a more callback for a found section acknowledges and sends one
plain text message: the literal more_text exactly when it is a truthy
non-empty string, else the static no-additional-information fallback. -/
theorem more_callback_fallback (cfg : Config) (pf : Bool) (chat : Nat)
    (s : Section) (data : String)
    (hpre : pyStartsWith data "more|" = true)
    (hfind : cfg.sections.find? (fun t => t.id == pySplit1Tail data) = some s) :
    handleCallback cfg pf chat data =
      ([CbAnswer.ack], [Sent.text chat (moreTextOf s) none]) ∧
    moreTextOf s =
      (if strTruthy s.more_text then s.more_text.getD ""
       else "Дополнительная информация отсутствует.") := by
  refine ⟨?_, ?_⟩
  · have hns := more_not_sect data hpre
    simp [handleCallback, hpre, hns, hfind]
  · rcases h : s.more_text with _ | t
    · simp [moreTextOf, strTruthy, h]
    · by_cases ht : t = "" <;> simp [moreTextOf, strTruthy, h, ht]

/-- C10 witness: the sample section whose more_text is the empty string
yields the static fallback. -/
theorem more_callback_fallback_witness :
    handleCallback cfgInline false 1 "more|b" =
      ([CbAnswer.ack], [Sent.text 1 (moreTextOf secTail) none]) ∧
    moreTextOf secTail =
      (if strTruthy secTail.more_text then secTail.more_text.getD ""
       else "Дополнительная информация отсутствует.") :=
  more_callback_fallback cfgInline false 1 secTail "more|b"
    (by decide) (by decide)

end GliderBot
